import Mathlib

/-!
Verification of the RFSN code-gate agent core: the gate function, the
episode loop, patch validation, the strategy bandit and the quarantine
lane, shallowly embedded from the Python sources
(agent/deepseek_agent.py, agent/loop.py,
rfsn_controller/learning/strategy_bandit.py,
rfsn_controller/learning/quarantine.py).

Python strings are modelled as lists of characters (`PyStr`) so that the
character-level operations of the source (startswith, strip, lower,
split, substring search) are directly expressible and decidable.
External effects (subprocesses, the file system, the LLM, random draws,
floating-point scores) are supplied through oracle parameters; the state
updates performed by the code itself are translated faithfully.
-/

namespace RFSN

/-- A Python string, modelled as its list of characters. -/
abbrev PyStr := List Char

/-- Python whitespace characters relevant to `str.strip()` (ASCII range;
the source never feeds non-ASCII whitespace to these checks). -/
def isPyWs (c : Char) : Bool :=
  c = ' ' || c = '\t' || c = '\n' || c = '\r' || c = Char.ofNat 11 || c = Char.ofNat 12

/-- Python `s.strip()`: remove leading and trailing whitespace. -/
def pyStrip (s : PyStr) : PyStr :=
  ((s.dropWhile isPyWs).reverse.dropWhile isPyWs).reverse

/-- Python `s.lower()` (ASCII case folding, as used on file paths). -/
def pyLower (s : PyStr) : PyStr := s.map Char.toLower

/-- Python `s.split("\n")`. -/
def pyLines : PyStr → List PyStr
  | [] => [[]]
  | c :: rest =>
    let r := pyLines rest
    if c = '\n' then [] :: r
    else
      match r with
      | [] => [[c]]
      | l :: ls => (c :: l) :: ls

/-- Python `s.startswith(pre)`. -/
def pyStarts (pre s : PyStr) : Bool := List.isPrefixOf pre s

/-- Python `needle in hay` substring search. -/
def containsSub (needle hay : PyStr) : Bool :=
  match hay with
  | [] => needle = []
  | _ :: t => List.isPrefixOf needle hay || containsSub needle t

/-- Lexicographic comparison on `PyStr`, matching Python string `<=`. -/
def pyStrLe : PyStr → PyStr → Bool
  | [], _ => true
  | _ :: _, [] => false
  | a :: as', b :: bs => if a = b then pyStrLe as' bs else decide (a < b)

/-- Insert into a list sorted by `pyStrLe`. -/
def insertSorted (x : PyStr) : List PyStr → List PyStr
  | [] => [x]
  | y :: ys => if pyStrLe x y then x :: y :: ys else y :: insertSorted x ys

/-- Python `sorted(...)` over a list of strings. -/
def sortPyStrs (l : List PyStr) : List PyStr := l.foldr insertSorted []

/-- Python `sorted(set(a) | set(b))`: sorted union with duplicates removed. -/
def sortedSetUnion (a b : List PyStr) : List PyStr :=
  sortPyStrs ((a ++ b).dedup)

/-- Association-list lookup, modelling Python dict access. -/
def lookupAssoc {α : Type} (k : String) : List (String × α) → Option α
  | [] => none
  | (k', v) :: rest => if k' = k then some v else lookupAssoc k rest

/-- Association-list upsert, modelling Python dict assignment. -/
def insertAssoc {α : Type} (k : String) (v : α) : List (String × α) → List (String × α)
  | [] => [(k, v)]
  | (k', v') :: rest => if k' = k then (k, v) :: rest else (k', v') :: insertAssoc k v rest

/-! ## Data model

The agent data types below are imported by `agent/loop.py` and
`agent/deepseek_agent.py` from `agent/types.py` and `agent/profiles.py`,
which are not part of the source tree; their shapes are modelled from
the specification (sections 3 and 6). -/

/-- Modelled from the spec: the `Phase` enum driving which proposal
kinds are legal. -/
inductive Phase where
  | ingest
  | localize
  | plan
  | patch_candidates
  | test_stage
  | diagnose
  | minimize
  | finalize
  | done
  deriving DecidableEq, Repr

/-- Modelled from the spec: the proposal `inputs` mapping, restricted to
the keys that the gate and the executors read (`files`, `diff`, `query`,
`command`, `summary`, `status`); a missing key is `none`. -/
structure ProposalInputs where
  files : Option (List PyStr) := none
  diff : Option PyStr := none
  query : Option PyStr := none
  command : Option String := none
  summary : Option String := none
  status : Option String := none
  deriving DecidableEq, Repr

/-- Modelled from the spec: an immutable `Proposal` value. -/
structure Proposal where
  kind : String
  rationale : String
  inputs : ProposalInputs := {}
  evidence : List String := []
  deriving DecidableEq, Repr

/-- Modelled from the spec: a gate decision. -/
structure GateDecision where
  accept : Bool
  reason : String
  deriving DecidableEq, Repr

/-- The `test_result` payload produced by `_exec_run_tests`
(`passed`, `returncode`, `stdout_tail`). -/
structure TestResultPayload where
  passed : Bool
  returncode : Int
  stdout_tail : String
  deriving DecidableEq, Repr

/-- The `metrics` mapping of an `ExecResult`, restricted to the keys the
loop and the tests read. -/
structure ExecMetrics where
  test_result : Option TestResultPayload := none
  validation_error : Option String := none
  deriving DecidableEq, Repr

/-- Modelled from the spec: an execution result (`status` is the Python
string, either of the values used by the source). -/
structure ExecResult where
  status : String
  summary : String
  artifacts : List PyStr := []
  metrics : ExecMetrics := {}
  deriving DecidableEq, Repr

/-- Modelled from the spec: the mutable budget counters. -/
structure Budget where
  round_idx : Nat := 0
  patch_attempts : Nat := 0
  test_runs : Nat := 0
  model_calls : Nat := 0
  deriving DecidableEq, Repr

/-- Modelled from the spec: the repository fingerprint. -/
structure RepoInfo where
  repo_id : String := ""
  workdir : String := ""
  deriving DecidableEq, Repr

/-- Modelled from the spec (section 9 design note): the `notes` scratch
dict, restricted to the well-known keys the loop and the executors
touch; a missing key is `none`. -/
structure Notes where
  problem_statement : Option String := none
  stop_reason : Option String := none
  last_error : Option String := none
  last_gate_reject : Option String := none
  last_rejected_proposal : Option (String × String) := none
  next_phase : Option Phase := none
  files_read : List PyStr := []
  last_file_contents : List (PyStr × String) := []
  action_history : List String := []
  solved : Option Bool := none
  final_summary : Option String := none
  deriving DecidableEq, Repr

/-- A localization hit (`file`, `reason`, `type`). -/
structure LocHit where
  file : PyStr
  reason : String
  type : String
  deriving DecidableEq, Repr

/-- A recorded test failure (`nodeid`, `message`). -/
structure TestFailure where
  nodeid : String
  message : String
  deriving DecidableEq, Repr

/-- The extra `result` payload of a ledger event, restricted to the keys
the loop writes (wall-clock duration is outside the model). -/
structure ResultPayload where
  gate_reject : Bool := false
  reason : Option String := none
  exec_status : Option String := none
  round : Option Nat := none
  test_result : Option TestResultPayload := none
  deriving DecidableEq, Repr

/-- Modelled from the spec: an append-only ledger event (timestamps are
outside the model). -/
structure LedgerEvent where
  task_id : String
  repo_id : String
  phase : Phase
  proposal : Proposal
  gate_decision : GateDecision
  exec_result : ExecResult
  result : ResultPayload
  deriving DecidableEq, Repr

/-- Modelled from the spec: the aggregate agent state.  The ledger field
models the append-only event log written by `append_event`. -/
structure AgentState where
  task_id : String := ""
  repo : RepoInfo := {}
  phase : Phase := .ingest
  budget : Budget := {}
  notes : Notes := {}
  localization_hits : List LocHit := []
  touched_files : List PyStr := []
  last_failures : List TestFailure := []
  ledger : List LedgerEvent := []
  deriving DecidableEq, Repr

/-- Modelled from the spec: the configuration surface consumed by the
gate and the loop (section 6). -/
structure Profile where
  name : String := ""
  max_rounds : Nat := 30
  max_patch_attempts : Nat := 10
  max_test_runs : Nat := 10
  max_model_calls : Nat := 50
  max_files_touched : Nat := 5
  max_diff_lines : Nat := 200
  forbid_test_modifications : Bool := true
  deriving DecidableEq, Repr

/-- Modelled from the spec: `append_event` appends one record to the
append-only ledger. -/
def append_event (s : AgentState) (ev : LedgerEvent) : AgentState :=
  { s with ledger := s.ledger ++ [ev] }

/-- `proposal.inputs.get("files", [])`. -/
def inputFiles (p : Proposal) : List PyStr := p.inputs.files.getD []

/-- `proposal.inputs.get("diff", "")`. -/
def inputDiff (p : Proposal) : PyStr := p.inputs.diff.getD []

/-! ## The gate (`agent/deepseek_agent.py`, `gate`) -/

/-- `_allowed_kinds_for_phase` from `agent/deepseek_agent.py`. -/
def allowed_kinds_for_phase : Phase → List String
  | .ingest => ["inspect", "search"]
  | .localize => ["inspect", "search"]
  | .plan => ["inspect", "search", "edit"]
  | .patch_candidates => ["edit", "inspect", "search"]
  | .test_stage => ["run_tests", "inspect"]
  | .diagnose => ["inspect", "search", "edit"]
  | .minimize => ["edit", "inspect", "run_tests"]
  | .finalize => ["finalize", "run_tests"]
  | .done => []

/-- The forbidden directory prefixes checked by the gate. -/
def forbidden_dirs : List PyStr :=
  ["vendor/".data, "node_modules/".data, ".venv/".data,
   "dist/".data, "build/".data, "target/".data]

/-- The first forbidden directory hit by any file of an edit proposal:
`f.startswith(forbidden) or f"/{forbidden}" in f`, first match in
iteration order, as in the gate loop. -/
def first_forbidden (files : List PyStr) : Option PyStr :=
  files.findSome? fun f =>
    forbidden_dirs.find? fun d => pyStarts d f || containsSub ('/' :: d) f

/-- The first file of an edit proposal that trips the test-modification
ban: `"test" in f.lower() or f.startswith("tests/")`. -/
def first_test_file (files : List PyStr) : Option PyStr :=
  files.find? fun f => containsSub "test".data (pyLower f) || pyStarts "tests/".data f

/-- The diff-line count the gate compares against `max_diff_lines`:
`len([line for line in diff.split("\n") if line.startswith("+") or
line.startswith("-")])`. -/
def count_diff_lines (diff : PyStr) : Nat :=
  ((pyLines diff).filter fun line => pyStarts ['+'] line || pyStarts ['-'] line).length

/-- The gate function from `agent/deepseek_agent.py`: checks in order
phase legality, test and patch budgets, file count, forbidden
directories, diff size, and the test-modification ban, short-circuiting
on the first failure. -/
def gate (profile : Profile) (state : AgentState) (proposal : Proposal) : GateDecision :=
  let allowed_kinds := allowed_kinds_for_phase state.phase
  if proposal.kind ∉ allowed_kinds then
    { accept := false,
      reason := "Action " ++ proposal.kind ++ " not allowed in phase" }
  else if proposal.kind = "run_tests" ∧ state.budget.test_runs ≥ profile.max_test_runs then
    { accept := false,
      reason := "Test budget exhausted (" ++ toString state.budget.test_runs
        ++ "/" ++ toString profile.max_test_runs ++ ")" }
  else if proposal.kind = "edit" ∧ state.budget.patch_attempts ≥ profile.max_patch_attempts then
    { accept := false,
      reason := "Patch budget exhausted (" ++ toString state.budget.patch_attempts
        ++ "/" ++ toString profile.max_patch_attempts ++ ")" }
  else if proposal.kind = "edit" ∧ (inputFiles proposal).length > profile.max_files_touched then
    { accept := false,
      reason := "Too many files (" ++ toString (inputFiles proposal).length
        ++ " > " ++ toString profile.max_files_touched ++ ")" }
  else if proposal.kind = "edit" ∧ (first_forbidden (inputFiles proposal)).isSome then
    { accept := false,
      reason := "Cannot edit forbidden directory: "
        ++ String.mk ((first_forbidden (inputFiles proposal)).getD []) }
  else if proposal.kind = "edit" ∧ count_diff_lines (inputDiff proposal) > profile.max_diff_lines then
    { accept := false,
      reason := "Diff too large (" ++ toString (count_diff_lines (inputDiff proposal))
        ++ " > " ++ toString profile.max_diff_lines ++ " lines)" }
  else if profile.forbid_test_modifications ∧ proposal.kind = "edit"
      ∧ (first_test_file (inputFiles proposal)).isSome then
    { accept := false,
      reason := "Test modification forbidden by profile: "
        ++ String.mk ((first_test_file (inputFiles proposal)).getD []) }
  else
    { accept := true, reason := "All constraints satisfied" }

/-! ## Patch validation (`agent/deepseek_agent.py`, `_validate_patch`) -/

/-- The collection loop of `_validate_patch`: walk the diff lines,
skipping `---`/`+++`/`@@`/`diff --git` headers, and gather removal lines
(stripped of the leading `-`) and addition lines (stripped of the
leading `+`), in order. -/
def collect_changes : List PyStr → List PyStr × List PyStr
  | [] => ([], [])
  | line :: rest =>
    let r := collect_changes rest
    if pyStarts "---".data line || pyStarts "+++".data line || pyStarts "@@".data line then r
    else if pyStarts "diff --git".data line then r
    else if pyStarts ['-'] line then (line.tail :: r.1, r.2)
    else if pyStarts ['+'] line then (r.1, line.tail :: r.2)
    else r

/-- The removal lines collected by `_validate_patch`. -/
def patchRemovals (diff : PyStr) : List PyStr := (collect_changes (pyLines diff)).1

/-- The addition lines collected by `_validate_patch`. -/
def patchAdditions (diff : PyStr) : List PyStr := (collect_changes (pyLines diff)).2

/-- `_validate_patch` from `agent/deepseek_agent.py`: rejects empty or
whitespace-only diffs, diffs with no change lines, no-op diffs whose
removals equal their additions, and whitespace-only changes. -/
def validate_patch (diff : PyStr) : Bool × String :=
  if diff = [] ∨ pyStrip diff = [] then
    (false, "Empty diff")
  else
    let removals := patchRemovals diff
    let additions := patchAdditions diff
    if removals = [] ∧ additions = [] then
      (false, "No changes in diff (no + or - lines)")
    else if removals = additions then
      (false, "No-op patch: removed lines identical to added lines")
    else
      let has_real_change :=
        ((removals.zip additions).any fun p => pyStrip p.1 ≠ pyStrip p.2)
          || removals.length ≠ additions.length
      if has_real_change = false ∧ removals ≠ [] ∧ additions ≠ [] then
        (false, "No meaningful changes (only whitespace differences)")
      else
        (true, "")

/-! ## Executors (`agent/deepseek_agent.py`, `execute` and helpers)

Subprocess and file-system effects are supplied as oracles; the state
updates performed by the executors themselves are translated from the
source. -/

/-- Oracle for the outcome of the patch-application chain of
`_exec_edit`: the `git apply` check and 3-way apply, the direct-edit
fallback, the structured-edit fallback, or an exception. -/
inductive ApplyPath where
  | checked_ok_apply_ok
  | checked_ok_apply_fail (err : String)
  | check_fail_direct_ok (file : PyStr)
  | check_fail_structured_ok (file : PyStr)
  | check_fail_all_fail (err : String)
  | raised (err : String)
  deriving DecidableEq, Repr

/-- Oracle for the outcome of the ripgrep/grep/walk search chain of
`_exec_search`. -/
inductive SearchOutcome where
  | found (files : List PyStr)
  | crashed (err : String)
  deriving DecidableEq, Repr

/-- Oracle for the outcome of the pytest subprocess of
`_exec_run_tests`. -/
inductive TestOutcome where
  | completed (returncode : Int) (stdout_tail : String) (failures : List TestFailure)
  | timeout
  | raised (err : String)
  deriving DecidableEq, Repr

/-- The bundle of external-world outcomes one execution may consume. -/
structure ExecOracle where
  fileRead : PyStr → Option String := fun _ => none
  search : SearchOutcome := .found []
  apply : ApplyPath := .check_fail_all_fail ""
  test : TestOutcome := .timeout

/-- Increment `state.budget.patch_attempts` by one. -/
def bumpPatchAttempts (s : AgentState) : AgentState :=
  { s with budget := { s.budget with patch_attempts := s.budget.patch_attempts + 1 } }

/-- Increment `state.budget.test_runs` by one. -/
def bumpTestRuns (s : AgentState) : AgentState :=
  { s with budget := { s.budget with test_runs := s.budget.test_runs + 1 } }

/-- Increment `state.budget.model_calls` by one. -/
def bumpModelCalls (s : AgentState) : AgentState :=
  { s with budget := { s.budget with model_calls := s.budget.model_calls + 1 } }

/-- The per-edit budget update of the loop: increment `patch_attempts` and
merge the file list of the proposal into `touched_files`. -/
def applyEditUpdates (files : List PyStr) (s : AgentState) : AgentState :=
  { bumpPatchAttempts s with touched_files := sortedSetUnion s.touched_files files }

/-- `_exec_inspect`: answer the problem statement, or read the requested
files, recording `files_read`, `last_file_contents` and localization
hits.  The contents dict is modelled as an association list. -/
def exec_inspect (fileRead : PyStr → Option String) (state : AgentState)
    (proposal : Proposal) : AgentState × ExecResult :=
  let files := inputFiles proposal
  let query := proposal.inputs.query.getD []
  if query = "problem_statement".data then
    let content := state.notes.problem_statement.getD "No problem statement available"
    (state, { status := "ok", summary := "Problem statement: " ++ content })
  else if files ≠ [] then
    let contents : List (PyStr × String) :=
      files.map fun f => (f, (fileRead f).getD "File not found")
    let files_read :=
      files.foldl
        (fun acc f => if (fileRead f).isSome && !(acc.contains f) then acc ++ [f] else acc)
        state.notes.files_read
    let hits : List LocHit :=
      (contents.filter fun p => p.2 ≠ "File not found").map
        fun p => { file := p.1, reason := "file read", type := "read" }
    ({ state with
        notes := { state.notes with files_read := files_read, last_file_contents := contents },
        localization_hits := state.localization_hits ++ hits },
     { status := "ok", summary := "Read files", artifacts := files })
  else
    (state, { status := "ok", summary := "No files to inspect" })

/-- `_exec_search`: fail on an empty query; otherwise record a
localization hit per matched file and report the matches. -/
def exec_search (o : SearchOutcome) (state : AgentState)
    (proposal : Proposal) : AgentState × ExecResult :=
  let query := proposal.inputs.query.getD []
  if query = [] then
    (state, { status := "fail", summary := "No search query provided" })
  else
    match o with
    | .crashed e => (state, { status := "fail", summary := "Python search failed: " ++ e })
    | .found files =>
      let hits : List LocHit :=
        files.map fun f => { file := f, reason := "match for query", type := "search" }
      let state := { state with localization_hits := state.localization_hits ++ hits }
      if files ≠ [] then
        (state, { status := "ok", summary := "Found files matching query", artifacts := files })
      else
        (state, { status := "ok", summary := "No files found matching query" })

/-- `_exec_edit`: fail without a diff, validate the patch, then follow
the apply chain; every path that mutates a file increments
`budget.patch_attempts` exactly once. -/
def exec_edit (o : ApplyPath) (state : AgentState)
    (proposal : Proposal) : AgentState × ExecResult :=
  let diff := inputDiff proposal
  if diff = [] then
    (state, { status := "fail", summary := "No diff provided" })
  else
    let v := validate_patch diff
    if v.1 = false then
      (state, { status := "fail", summary := "Invalid patch: " ++ v.2,
                metrics := { validation_error := some v.2 } })
    else
      match o with
      | .checked_ok_apply_ok =>
        let files := inputFiles proposal
        (bumpPatchAttempts state,
         { status := "ok",
           summary := "Patch applied successfully (" ++ toString files.length ++ " files)",
           artifacts := files })
      | .checked_ok_apply_fail err =>
        (state, { status := "fail", summary := "Patch apply failed: " ++ err })
      | .check_fail_direct_ok f =>
        (bumpPatchAttempts state,
         { status := "ok", summary := "Applied direct edit to " ++ String.mk f,
           artifacts := [f] })
      | .check_fail_structured_ok f =>
        (bumpPatchAttempts state,
         { status := "ok", summary := "Applied structured edit to " ++ String.mk f,
           artifacts := [f] })
      | .check_fail_all_fail err =>
        (state, { status := "fail", summary := "Patch check failed: " ++ err })
      | .raised e =>
        (state, { status := "fail", summary := "Edit failed: " ++ e })

/-- `_exec_run_tests`: run the command; on completion record up to five
failures and report pass/fail with the test-result payload. -/
def exec_run_tests (o : TestOutcome) (state : AgentState)
    (_proposal : Proposal) : AgentState × ExecResult :=
  match o with
  | .completed returncode stdout_tail failures =>
    let passed := returncode = 0
    let state :=
      if passed then { state with last_failures := [] }
      else { state with last_failures := failures.take 5 }
    let payload : TestResultPayload :=
      { passed := passed, returncode := returncode, stdout_tail := stdout_tail }
    (state,
     { status := if passed then "ok" else "fail",
       summary := if passed then "Tests passed" else "Tests failed",
       metrics := { test_result := some payload } })
  | .timeout => (state, { status := "fail", summary := "Test run timed out (5 min)" })
  | .raised e => (state, { status := "fail", summary := "Test run failed: " ++ e })

/-- `_exec_finalize`: record the completion status and summary in
notes. -/
def exec_finalize (state : AgentState) (proposal : Proposal) : AgentState × ExecResult :=
  let summary := proposal.inputs.summary.getD ""
  let status := proposal.inputs.status.getD "complete"
  ({ state with notes := { state.notes with
      solved := some (status = "complete"), final_summary := some summary } },
   { status := "ok", summary := "Task finalized: " ++ status })

/-- `execute` from `agent/deepseek_agent.py`: dispatch on the proposal
kind. -/
def execute (o : ExecOracle) (_profile : Profile) (state : AgentState)
    (proposal : Proposal) : AgentState × ExecResult :=
  if proposal.kind = "inspect" then exec_inspect o.fileRead state proposal
  else if proposal.kind = "search" then exec_search o.search state proposal
  else if proposal.kind = "edit" then exec_edit o.apply state proposal
  else if proposal.kind = "run_tests" then exec_run_tests o.test state proposal
  else if proposal.kind = "finalize" then exec_finalize state proposal
  else (state, { status := "fail", summary := "Unknown proposal kind: " ++ proposal.kind })

/-! ## The episode loop (`agent/loop.py`, `run_episode`) -/

/-- Outcome of a `propose_fn` call: a proposal, or an exception. -/
inductive ProposeOutcome where
  | ok (p : Proposal)
  | raised (err : String)

/-- The external behavior of one round: the propose outcome, the notes
mutation the propose function performs (the proposers of the repository
mutate only `state.notes`), the execution oracle, and an optional
exception raised by `exec_fn` itself. -/
structure RoundInput where
  propose : ProposeOutcome
  notesF : Notes → Notes := id
  oracle : ExecOracle := {}
  execRaises : Option String := none

/-- `_advance_phase` from `agent/loop.py`: the planner may force a phase
through `notes["next_phase"]` (consumed); otherwise follow the default
transition table. -/
def advance_phase (state : AgentState) (proposal : Proposal)
    (exec_result : ExecResult) : AgentState :=
  match state.notes.next_phase with
  | some forced => { state with phase := forced, notes := { state.notes with next_phase := none } }
  | none =>
    match state.phase with
    | .ingest => { state with phase := .localize }
    | .localize =>
      if state.localization_hits ≠ [] then { state with phase := .plan } else state
    | .plan => { state with phase := .patch_candidates }
    | .patch_candidates =>
      if proposal.kind = "edit" ∧ exec_result.status = "ok" then
        { state with phase := .test_stage }
      else if proposal.kind = "edit" ∧ exec_result.status = "fail" then
        { state with phase := .plan }
      else state
    | .test_stage =>
      if exec_result.status = "ok" then
        match exec_result.metrics.test_result with
        | some tr =>
          if tr.passed then { state with phase := .minimize }
          else { state with phase := .diagnose }
        | none => { state with phase := .diagnose }
      else { state with phase := .diagnose }
    | .diagnose => { state with phase := .plan }
    | .minimize => { state with phase := .finalize }
    | .finalize =>
      if proposal.kind = "finalize" then
        { state with phase := .done, notes := { state.notes with stop_reason := some "finalized" } }
      else state
    | .done => state

/-- The state a round presents to the gate: `round_idx` already
incremented and the propose-time notes mutation applied. -/
def preGateState (inp : RoundInput) (state0 : AgentState) : AgentState :=
  let state := { state0 with budget := { state0.budget with round_idx := state0.budget.round_idx + 1 } }
  { state with notes := inp.notesF state.notes }

/-- The tail of an accepted round, after execution: update the budget
counters and `touched_files` by proposal kind, append the ledger event,
and advance the phase. -/
def finishRound (proposal : Proposal) (decision : GateDecision)
    (er : AgentState × ExecResult) : AgentState :=
  let state := er.1
  let exec_result := er.2
  let state := if proposal.kind = "run_tests" then bumpTestRuns state else state
  let state := if proposal.kind = "edit" then applyEditUpdates (inputFiles proposal) state else state
  let state :=
    if proposal.kind ∈ ["inspect", "search", "edit", "run_tests"] then bumpModelCalls state
    else state
  let result_payload : ResultPayload :=
    { exec_status := some exec_result.status, round := some state.budget.round_idx,
      test_result := exec_result.metrics.test_result }
  let ev : LedgerEvent :=
    { task_id := state.task_id, repo_id := state.repo.repo_id, phase := state.phase,
      proposal := proposal, gate_decision := decision,
      exec_result := exec_result, result := result_payload }
  let state := append_event state ev
  advance_phase state proposal exec_result

/-- The ledger event recorded for a gate rejection, with
`gate_reject = true` and the rejection reason in the payload. -/
def rejectEvent (profile : Profile) (proposal : Proposal) (state0 : AgentState) : LedgerEvent :=
  { task_id := state0.task_id, repo_id := state0.repo.repo_id, phase := state0.phase,
    proposal := proposal, gate_decision := gate profile state0 proposal,
    exec_result := { status := "fail", summary := "gate_reject" },
    result := { gate_reject := true, reason := some (gate profile state0 proposal).reason } }

/-- The tail of a gate-rejected round: log the rejection event, stash
the reason and the rejected proposal into notes, and force re-planning
(stay in `diagnose` when already diagnosing). -/
def rejectRound (profile : Profile) (proposal : Proposal) (state0 : AgentState) : AgentState :=
  let decision := gate profile state0 proposal
  let ev : LedgerEvent := rejectEvent profile proposal state0
  let state := append_event state0 ev
  let state := { state with notes := { state.notes with
      last_gate_reject := some decision.reason,
      last_rejected_proposal := some (proposal.kind, proposal.rationale) } }
  { state with phase := if state.phase ≠ .diagnose then .plan else .diagnose }

/-- One iteration of the `run_episode` while-loop body, after the
max-rounds check: increment `round_idx`, propose, gate, and either
handle rejection or execute, update budgets and `touched_files`, log,
and advance the phase. -/
def run_round (profile : Profile) (inp : RoundInput) (state0 : AgentState) : AgentState :=
  let state := preGateState inp state0
  match inp.propose with
  | .raised e =>
    { state with notes := { state.notes with last_error := some e }, phase := .diagnose }
  | .ok proposal =>
    let decision := gate profile state proposal
    if decision.accept = false then
      rejectRound profile proposal state
    else
      let er :=
        match inp.execRaises with
        | some e => (state, { status := "fail", summary := "Execution error: " ++ e : ExecResult })
        | none => execute inp.oracle profile state proposal
      finishRound proposal decision er

/-- The `run_episode` loop over a given sequence of external round
behaviors: stop at `Phase.done`; before each round stop with
stop-reason `max_rounds` once `round_idx` reaches `max_rounds`. -/
def run_rounds (profile : Profile) : List RoundInput → AgentState → AgentState
  | [], s => s
  | inp :: rest, s =>
    if s.phase = .done then s
    else if s.budget.round_idx ≥ profile.max_rounds then
      { s with notes := { s.notes with stop_reason := some "max_rounds" }, phase := .done }
    else run_rounds profile rest (run_round profile inp s)

/-! ## Strategy bandit (`rfsn_controller/learning/strategy_bandit.py`)

Floating-point quantities (rewards, Beta parameters) are modelled as
rationals; the Beta-posterior draws and the floating-point UCB scores
are supplied as oracles (random draws and transcendental float
arithmetic are outside the model).  Python dicts are association lists;
the Python strategy set is carried as the list of its iteration
order. -/

/-- Per-arm statistics (`StrategyStats`). -/
structure StrategyStats where
  wins : Nat := 0
  tries : Nat := 0
  regressions : Nat := 0
  total_reward : ℚ := 0
  alpha : ℚ := 1
  beta : ℚ := 1
  deriving DecidableEq, Repr

/-- `StrategyStats.mean_reward`: the Beta-posterior mean. -/
def StrategyStats.mean_reward (s : StrategyStats) : ℚ := s.alpha / (s.alpha + s.beta)

/-- The bandit state (`StrategyBandit`): the strategy catalog, the
epsilon-greedy exploration bonus, per-context arm statistics, and
global statistics. -/
structure StrategyBandit where
  strategies : List String
  exploration_bonus : ℚ := 1/10
  arms : List (String × List (String × StrategyStats)) := []
  global_stats : List (String × StrategyStats) := []

/-- `_get_context_arms`: the arm map for a context, a fresh map with
one default entry per strategy when the context is new. -/
def get_context_arms (b : StrategyBandit) (context_key : String) :
    List (String × StrategyStats) :=
  match lookupAssoc context_key b.arms with
  | some m => m
  | none => b.strategies.map fun s => (s, {})

/-- `arms[s]` lookup (the source maintains an entry for every
strategy). -/
def armStats (arms : List (String × StrategyStats)) (s : String) : StrategyStats :=
  (lookupAssoc s arms).getD {}

/-- Randomness and floating-point oracle for one `select` call:
`choiceIdx` resolves `random.choice` over the unexplored arms,
`sample` gives the Thompson Beta draws, `ucbVal` the floating-point UCB
scores, `uniform` the epsilon-greedy coin, and `choiceIdx2` resolves
the epsilon-greedy `random.choice`. -/
structure RandOracle where
  choiceIdx : Nat := 0
  sample : String → ℚ := fun _ => 0
  ucbVal : String → ℚ := fun _ => 0
  uniform : ℚ := 1
  choiceIdx2 : Nat := 0

/-- `random.choice(l)` under an oracle index. -/
def pick (l : List String) (idx : Nat) : String := l.getD (idx % l.length) ""

/-- The argmax loop of `select`: start from `candidates[0]` with best
score `-1.0` and keep any strictly greater score. -/
def argmaxScore (score : String → ℚ) (cands : List String) : String :=
  match cands with
  | [] => ""
  | c0 :: _ => (cands.foldl (fun acc s => if score s > acc.2 then (s, score s) else acc) (c0, -1)).1

/-- Python `max(cands, key=f)`: first element with maximal key. -/
def maxByFirst (f : String → ℚ) : List String → String
  | [] => ""
  | c :: cs => cs.foldl (fun acc s => if f s > f acc then s else acc) c

/-- `StrategyBandit.select`: filter excluded strategies (falling back to
the full set if that empties the candidates), return a uniformly random
unexplored arm if any exists, and otherwise score the candidates by the
requested method. -/
def StrategyBandit.select (b : StrategyBandit) (o : RandOracle) (context_key : String)
    (exclude : List String) (method : String) : String :=
  let arms := get_context_arms b context_key
  let candidates0 := b.strategies.filter fun s => !(exclude.contains s)
  let candidates := if candidates0 = [] then b.strategies else candidates0
  let unexplored := candidates.filter fun s => (armStats arms s).tries = 0
  if unexplored ≠ [] then
    pick unexplored o.choiceIdx
  else if method = "thompson" then
    argmaxScore o.sample candidates
  else if method = "ucb" then
    argmaxScore o.ucbVal candidates
  else
    if o.uniform < b.exploration_bonus then pick candidates o.choiceIdx2
    else maxByFirst (fun s => (armStats arms s).mean_reward) candidates

/-- The statistics increments of `StrategyBandit.update` applied to one
`StrategyStats` record: bump `tries`, then branch on
success/regression/partial reward, update the Beta parameters by the
sign of the reward, and accumulate `total_reward`. -/
def updateStats (success regression : Bool) (partial_reward : Option ℚ)
    (s : StrategyStats) : StrategyStats :=
  let s := { s with tries := s.tries + 1 }
  let wr : StrategyStats × ℚ :=
    if success then ({ s with wins := s.wins + 1 }, 1)
    else if regression then ({ s with regressions := s.regressions + 1 }, -1/2)
    else (s, partial_reward.getD 0)
  let s := wr.1
  let reward := wr.2
  let s :=
    if reward > 0 then { s with alpha := s.alpha + reward }
    else { s with beta := s.beta + |reward| }
  { s with total_reward := s.total_reward + reward }

/-- `StrategyBandit.update`: ignore unknown strategies; otherwise apply
the same increments to the per-context and the global statistics
(persistence is an external effect outside the model). -/
def StrategyBandit.update (b : StrategyBandit) (context_key strategy : String)
    (success : Bool) (regression : Bool := false) (partial_reward : Option ℚ := none) :
    StrategyBandit :=
  if !(b.strategies.contains strategy) then b
  else
    let arms := get_context_arms b context_key
    let stats := updateStats success regression partial_reward (armStats arms strategy)
    let gstats := updateStats success regression partial_reward
      ((lookupAssoc strategy b.global_stats).getD {})
    { b with
      arms := insertAssoc context_key (insertAssoc strategy stats arms) b.arms,
      global_stats := insertAssoc strategy gstats b.global_stats }

/-! ## Quarantine lane (`rfsn_controller/learning/quarantine.py`) -/

/-- Quarantine thresholds (`QuarantineConfig`); the float
`max_regression_rate` is modelled as a rational. -/
structure QuarantineConfig where
  min_successes : Nat := 2
  max_regression_rate : ℚ := 3/10
  regression_cooldown : ℚ := 3600
  min_tries_for_rate : Nat := 5
  deriving DecidableEq, Repr

/-- The statistics dict consumed by the stats-level `is_quarantined`
check, restricted to the keys it reads. -/
structure StatsDict where
  tries : Nat := 0
  wins : Nat := 0
  regressions : Nat := 0
  deriving DecidableEq, Repr

/-- The stats-level `is_quarantined` from
`rfsn_controller/learning/quarantine.py`: quarantined when evidence is
below `min_successes`, when there are zero wins, or when the regression
rate exceeds the maximum once enough tries accumulated. -/
def is_quarantined (stats : StatsDict) (config : QuarantineConfig) : Bool :=
  if stats.tries < config.min_successes then true
  else if stats.wins = 0 then true
  else if stats.tries ≥ config.min_tries_for_rate
      ∧ (stats.regressions : ℚ) / (stats.tries : ℚ) > config.max_regression_rate then true
  else false

/-- Per-context quarantine statistics (`QuarantineStats`). -/
structure QuarantineStats where
  strategy : String
  total_tries : Nat := 0
  successes : Nat := 0
  regressions : Nat := 0
  last_regression_timestamp : Option ℚ := none
  deriving DecidableEq, Repr

/-- The quarantine-lane state (`QuarantineLane`): configuration,
per-context statistics, and the global quarantine set (persistence is
outside the model). -/
structure QuarantineLane where
  config : QuarantineConfig := {}
  stats : List (String × List (String × QuarantineStats)) := []
  global_quarantine : List String := []

/-- `QuarantineLane.is_quarantined`: the global set wins; otherwise the
stats-level rule is consulted only when per-context statistics have
been recorded for the pair (an empty-string context is falsy in the
source). -/
def QuarantineLane.is_quarantined (lane : QuarantineLane) (strategy : String)
    (context : Option String := none) : Bool :=
  if lane.global_quarantine.contains strategy then true
  else
    match context with
    | none => false
    | some ctx =>
      if ctx = "" then false
      else
        match lookupAssoc ctx lane.stats with
        | none => false
        | some m =>
          match lookupAssoc strategy m with
          | none => false
          | some st =>
            RFSN.is_quarantined
              { tries := st.total_tries, wins := st.successes, regressions := st.regressions }
              lane.config

/-- `QuarantineLane.record_outcome`: bump the per-context statistics and
report whether this call caused a new quarantine transition. -/
def QuarantineLane.record_outcome (lane : QuarantineLane) (strategy context : String)
    (success : Bool) (regression : Bool := false) (timestamp : ℚ := 0) :
    QuarantineLane × Bool :=
  let m := (lookupAssoc context lane.stats).getD []
  let st := (lookupAssoc strategy m).getD { strategy := strategy }
  -- `_get_stats` inserts a fresh entry before the first quarantine check
  let lane := { lane with stats := insertAssoc context (insertAssoc strategy st m) lane.stats }
  let was := lane.is_quarantined strategy (some context)
  let st := { st with total_tries := st.total_tries + 1 }
  let st := if success then { st with successes := st.successes + 1 } else st
  let st :=
    if regression then
      { st with regressions := st.regressions + 1, last_regression_timestamp := some timestamp }
    else st
  let lane := { lane with stats := insertAssoc context (insertAssoc strategy st m) lane.stats }
  let now := lane.is_quarantined strategy (some context)
  (lane, now && !was)

/-! ## Supporting lemmas -/

theorem pyLines_ne_nil (s : PyStr) : pyLines s ≠ [] := by
  induction s with
  | nil => simp [pyLines]
  | cons c rest ih =>
    simp only [pyLines]
    split
    · simp
    · cases h : pyLines rest with
      | nil => exact absurd h ih
      | cons l ls => simp [h]

theorem mem_pyLines_mem {s : PyStr} : ∀ l ∈ pyLines s, ∀ c ∈ l, c ∈ s := by
  induction s with
  | nil =>
    intro l hl c hc
    simp [pyLines] at hl
    subst hl
    exact absurd hc (List.not_mem_nil c)
  | cons a rest ih =>
    intro l hl c hc
    simp only [pyLines] at hl
    by_cases ha : a = '\n'
    · rw [if_pos ha] at hl
      rcases List.mem_cons.mp hl with h | h
      · subst h; exact absurd hc (List.not_mem_nil c)
      · exact List.mem_cons_of_mem a (ih l h c hc)
    · rw [if_neg ha] at hl
      cases hr : pyLines rest with
      | nil => exact absurd hr (pyLines_ne_nil rest)
      | cons t ts =>
        rw [hr] at hl
        rcases List.mem_cons.mp hl with h | h
        · subst h
          rcases List.mem_cons.mp hc with h | h
          · exact h ▸ List.mem_cons_self a rest
          · exact List.mem_cons_of_mem a
              (ih t (hr ▸ List.mem_cons_self t ts) c h)
        · exact List.mem_cons_of_mem a
            (ih l (hr ▸ List.mem_cons_of_mem t h) c hc)

theorem pyStrip_eq_nil_all_ws {s : PyStr} (h : pyStrip s = []) :
    ∀ c ∈ s, isPyWs c = true := by
  intro c hc
  unfold pyStrip at h
  rw [List.reverse_eq_nil_iff] at h
  have h2 : ∀ x ∈ (s.dropWhile isPyWs).reverse, isPyWs x := by
    intro x hx
    exact List.dropWhile_eq_nil_iff.mp h x hx
  have h3 : ∀ x ∈ s.dropWhile isPyWs, isPyWs x := by
    intro x hx
    exact h2 x (List.mem_reverse.mpr hx)
  rcases List.mem_append.mp
      ((List.takeWhile_append_dropWhile (p := isPyWs) (l := s)) ▸ hc) with hx | hx
  · exact List.mem_takeWhile_imp hx
  · exact h3 c hx

theorem pyStarts_dash_mem {l : PyStr} (h : pyStarts ['-'] l = true) : '-' ∈ l := by
  rcases List.isPrefixOf_iff_prefix.mp h with ⟨t, ht⟩
  rw [← ht]
  exact List.mem_append_left t (List.mem_singleton.mpr rfl)

theorem pyStarts_plus_mem {l : PyStr} (h : pyStarts ['+'] l = true) : '+' ∈ l := by
  rcases List.isPrefixOf_iff_prefix.mp h with ⟨t, ht⟩
  rw [← ht]
  exact List.mem_append_left t (List.mem_singleton.mpr rfl)

theorem collect_changes_removal_ex :
    ∀ L : List PyStr, (collect_changes L).1 ≠ [] →
      ∃ l ∈ L, pyStarts ['-'] l = true := by
  intro L
  induction L with
  | nil => intro h; exact absurd rfl h
  | cons line rest ih =>
    intro h
    simp only [collect_changes] at h
    split at h
    · rcases ih h with ⟨l, hl, hs⟩; exact ⟨l, List.mem_cons_of_mem _ hl, hs⟩
    · split at h
      · rcases ih h with ⟨l, hl, hs⟩; exact ⟨l, List.mem_cons_of_mem _ hl, hs⟩
      · split at h
        · next hs => exact ⟨line, List.mem_cons_self _ _, hs⟩
        · split at h
          · rcases ih h with ⟨l, hl, hs⟩; exact ⟨l, List.mem_cons_of_mem _ hl, hs⟩
          · rcases ih h with ⟨l, hl, hs⟩; exact ⟨l, List.mem_cons_of_mem _ hl, hs⟩

theorem collect_changes_addition_ex :
    ∀ L : List PyStr, (collect_changes L).2 ≠ [] →
      ∃ l ∈ L, pyStarts ['+'] l = true := by
  intro L
  induction L with
  | nil => intro h; exact absurd rfl h
  | cons line rest ih =>
    intro h
    simp only [collect_changes] at h
    split at h
    · rcases ih h with ⟨l, hl, hs⟩; exact ⟨l, List.mem_cons_of_mem _ hl, hs⟩
    · split at h
      · rcases ih h with ⟨l, hl, hs⟩; exact ⟨l, List.mem_cons_of_mem _ hl, hs⟩
      · split at h
        · rcases ih h with ⟨l, hl, hs⟩; exact ⟨l, List.mem_cons_of_mem _ hl, hs⟩
        · split at h
          · next hs => exact ⟨line, List.mem_cons_self _ _, hs⟩
          · rcases ih h with ⟨l, hl, hs⟩; exact ⟨l, List.mem_cons_of_mem _ hl, hs⟩

/-- A diff with a collected removal line is not empty or
whitespace-only. -/
theorem removals_ne_nil_not_blank {d : PyStr} (h : patchRemovals d ≠ []) :
    ¬(d = [] ∨ pyStrip d = []) := by
  rcases collect_changes_removal_ex (pyLines d) h with ⟨l, hl, hs⟩
  have hmem : '-' ∈ d := mem_pyLines_mem l hl '-' (pyStarts_dash_mem hs)
  rintro (he | he)
  · subst he; exact absurd hmem (List.not_mem_nil _)
  · have := pyStrip_eq_nil_all_ws he '-' hmem
    simp [isPyWs] at this

/-- A diff with a collected addition line is not empty or
whitespace-only. -/
theorem additions_ne_nil_not_blank {d : PyStr} (h : patchAdditions d ≠ []) :
    ¬(d = [] ∨ pyStrip d = []) := by
  rcases collect_changes_addition_ex (pyLines d) h with ⟨l, hl, hs⟩
  have hmem : '+' ∈ d := mem_pyLines_mem l hl '+' (pyStarts_plus_mem hs)
  rintro (he | he)
  · subst he; exact absurd hmem (List.not_mem_nil _)
  · have := pyStrip_eq_nil_all_ws he '+' hmem
    simp [isPyWs] at this

/-- Counting split for filters: when `B` implies `A`, the `A`-count is
the count of `A`-but-not-`B` plus the `B`-count. -/
theorem filter_length_split {α : Type} (A B : α → Bool)
    (hBA : ∀ x, B x = true → A x = true) (l : List α) :
    (l.filter A).length
      = (l.filter fun x => A x && !(B x)).length + (l.filter B).length := by
  induction l with
  | nil => rfl
  | cons x xs ih =>
    by_cases hB : B x = true
    · have hA := hBA x hB
      simp [List.filter_cons, hA, hB, ih]
      omega
    · replace hB : B x = false := by
        cases h : B x
        · rfl
        · exact absurd h hB
      by_cases hA : A x = true
      · simp [List.filter_cons, hA, hB, ih]; omega
      · replace hA : A x = false := by
          cases h : A x
          · rfl
          · exact absurd h hA
        simp [List.filter_cons, hA, hB, ih]

/-! ## Claim C6: empty-diff and no-op rejection in `validate_patch` -/

/-- The no-op rejection message of `_validate_patch`. -/
def noopMsg : String := "No-op patch: removed lines identical to added lines"

/-- The no-op example diff of the claim. -/
def noopExample : PyStr := "--- a/f\n+++ b/f\n@@ -1,1 +1,1 @@\n-x\n+x\n".data

/-- C6: `validate_patch` rejects every empty or whitespace-only diff
with `Empty diff`; every diff whose collected removal lines equal its
addition lines elementwise (non-empty) is rejected with the no-op
message, which contains `no-op` up to case; in particular the
example diff of the claim is rejected as a no-op. -/
theorem validate_patch_noop_rejection :
    (∀ d : PyStr, pyStrip d = [] → validate_patch d = (false, "Empty diff"))
    ∧ (∀ d : PyStr, patchRemovals d = patchAdditions d → patchRemovals d ≠ [] →
        validate_patch d = (false, noopMsg))
    ∧ containsSub "no-op".data (pyLower noopMsg.data) = true
    ∧ validate_patch noopExample = (false, noopMsg) := by
  refine ⟨?_, ?_, by decide, by decide⟩
  · intro d h
    simp only [validate_patch]
    rw [if_pos (Or.inr h)]
  · intro d h1 h2
    simp only [validate_patch]
    rw [if_neg (removals_ne_nil_not_blank h2)]
    rw [if_neg (by intro hc; exact h2 hc.1)]
    rw [if_pos h1]
    rfl

/-- C6 witness: the two hypothesis-bearing conjuncts applied at
concrete diffs. -/
theorem validate_patch_noop_rejection_witness :
    validate_patch "  \n ".data = (false, "Empty diff")
    ∧ validate_patch "-x\n+x".data = (false, noopMsg) :=
  ⟨validate_patch_noop_rejection.1 "  \n ".data (by decide),
   validate_patch_noop_rejection.2.1 "-x\n+x".data (by decide) (by decide)⟩

/-! ## Claim C7: length mismatch short-circuits to a valid patch -/

/-- C7: whenever the collected removal and addition lists have different
lengths, `validate_patch` returns valid — the whitespace-only-change
rejection is unreachable in that case. -/
theorem validate_patch_length_mismatch_valid :
    ∀ d : PyStr, (patchRemovals d).length ≠ (patchAdditions d).length →
      validate_patch d = (true, "") := by
  intro d hlen
  have hnotblank : ¬(d = [] ∨ pyStrip d = []) := by
    by_cases hr : patchRemovals d = []
    · have ha : patchAdditions d ≠ [] := by
        intro ha
        rw [hr, ha] at hlen
        exact hlen rfl
      exact additions_ne_nil_not_blank ha
    · exact removals_ne_nil_not_blank hr
  have hne : patchRemovals d ≠ patchAdditions d := by
    intro h
    exact hlen (h ▸ rfl)
  have hboth : ¬(patchRemovals d = [] ∧ patchAdditions d = []) := by
    rintro ⟨h1, h2⟩
    rw [h1, h2] at hlen
    exact hlen rfl
  simp only [validate_patch]
  rw [if_neg hnotblank, if_neg hboth, if_neg hne]
  rw [if_neg]
  rintro ⟨hfalse, -, -⟩
  simp only [Bool.or_eq_false_iff, decide_eq_false_iff_not] at hfalse
  exact hfalse.2 hlen

/-- C7 witness: a pure-removal diff has one removal and zero additions,
hence is valid. -/
theorem validate_patch_length_mismatch_valid_witness :
    validate_patch "-x\n".data = (true, "") :=
  validate_patch_length_mismatch_valid "-x\n".data (by decide)

/-! ## Claim C1: the diff-line count compared against max_diff_lines -/

/-- The count described by the spec sentence (for comparison with the
gate function `count_diff_lines`): lines beginning with `+` or `-`, excluding
the `+++` and `---` header lines. -/
def spec_count_diff_lines (diff : PyStr) : Nat :=
  ((pyLines diff).filter fun l =>
    (pyStarts ['+'] l || pyStarts ['-'] l)
      && !(pyStarts "+++".data l) && !(pyStarts "---".data l)).length

/-- The number of `+++`/`---` header lines of a diff. -/
def header_marker_count (diff : PyStr) : Nat :=
  ((pyLines diff).filter fun l => pyStarts "+++".data l || pyStarts "---".data l).length

/-- A diff whose only `+`/`-`-prefixed lines are its file headers. -/
def headerOnlyDiff : PyStr := "--- a/f\n+++ b/f".data

/-- Profile used by the C1 counterexample. -/
def c1profile : Profile := { max_diff_lines := 1 }

/-- State used by the C1 counterexample. -/
def c1state : AgentState := { phase := .plan }

/-- Edit proposal used by the C1 counterexample: its diff consists of
the two header lines only. -/
def c1proposal : Proposal :=
  { kind := "edit", rationale := "r",
    inputs := { diff := some headerOnlyDiff, files := some ["f".data] } }

/-- C1 counterexample: the gate counts the `---`/`+++` header lines
(the header-only diff counts 2, not the 0 the claim asserts), and the
gate therefore rejects this edit under `max_diff_lines = 1` even though
the count of 0 asserted by the claim would admit it. -/
theorem gate_diff_count_includes_headers :
    count_diff_lines headerOnlyDiff = 2
    ∧ spec_count_diff_lines headerOnlyDiff = 0
    ∧ (gate c1profile c1state c1proposal).accept = false := by
  decide

/-- C1 amended: the count the gate compares against `max_diff_lines`
includes every line beginning with `+` or `-`, the `+++`/`---` header
lines included: it equals the header-excluding count of the spec plus
the number of header lines. -/
theorem count_diff_lines_eq_spec_plus_headers :
    ∀ diff : PyStr,
      count_diff_lines diff = spec_count_diff_lines diff + header_marker_count diff := by
  intro diff
  have hBA : ∀ l : PyStr,
      (pyStarts "+++".data l || pyStarts "---".data l) = true →
      (pyStarts ['+'] l || pyStarts ['-'] l) = true := by
    intro l h
    have h' : pyStarts "+++".data l = true ∨ pyStarts "---".data l = true := by
      simpa using h
    rcases h' with h | h
    · have hx : pyStarts ['+'] l = true := List.isPrefixOf_iff_prefix.mpr
        (List.IsPrefix.trans (by decide) (List.isPrefixOf_iff_prefix.mp h))
      simp [hx]
    · have hx : pyStarts ['-'] l = true := List.isPrefixOf_iff_prefix.mpr
        (List.IsPrefix.trans (by decide) (List.isPrefixOf_iff_prefix.mp h))
      simp [hx]
  have hsplit := filter_length_split
    (fun l => pyStarts ['+'] l || pyStarts ['-'] l)
    (fun l => pyStarts "+++".data l || pyStarts "---".data l)
    hBA (pyLines diff)
  have hfun :
      (fun x : PyStr => (pyStarts ['+'] x || pyStarts ['-'] x)
          && !(pyStarts "+++".data x || pyStarts "---".data x))
        = (fun l : PyStr => (pyStarts ['+'] l || pyStarts ['-'] l)
            && !(pyStarts "+++".data l) && !(pyStarts "---".data l)) := by
    funext l
    cases pyStarts "+++".data l <;> cases pyStarts "---".data l
      <;> cases pyStarts ['+'] l <;> cases pyStarts ['-'] l <;> rfl
  unfold count_diff_lines spec_count_diff_lines header_marker_count
  rw [hsplit, hfun]

/-! ## Claim C5: gate totality and missing edit inputs -/

/-- Profile used by the C5 counterexample (the default limits). -/
def c5profile : Profile := {}

/-- State used by the C5 counterexample. -/
def c5state : AgentState := { phase := .plan }

/-- Edit proposal with no `diff` and no `files` entry. -/
def c5proposal : Proposal := { kind := "edit", rationale := "r" }

/-- C5 counterexample: an edit proposal lacking both required inputs is
accepted by the gate, not rejected. -/
theorem gate_accepts_inputless_edit :
    c5proposal.inputs.diff = none ∧ c5proposal.inputs.files = none
    ∧ (gate c5profile c5state c5proposal).accept = true := by
  decide

/-- C5 amended: the gate is a total function; an edit proposal lacking
`diff` and `files` is treated as having an empty file list and an
empty diff, so it passes every edit-specific check and is accepted
whenever the phase allows edits and the patch budget is not exhausted;
the missing diff is caught only at execution time, where `_exec_edit`
fails with `No diff provided` on every apply path. -/
theorem gate_total_missing_edit_inputs :
    ∀ (profile : Profile) (state : AgentState) (p : Proposal),
      p.kind = "edit" → p.inputs.files = none → p.inputs.diff = none →
      p.kind ∈ allowed_kinds_for_phase state.phase →
      state.budget.patch_attempts < profile.max_patch_attempts →
      (gate profile state p).accept = true
      ∧ ∀ o : ApplyPath,
          (exec_edit o state p).2 = { status := "fail", summary := "No diff provided" } := by
  intro profile state p hk hf hd hall hbud
  have hfiles : inputFiles p = [] := by simp [inputFiles, hf]
  have hdiff : inputDiff p = [] := by simp [inputDiff, hd]
  have hcount : count_diff_lines ([] : PyStr) = 0 := by decide
  constructor
  · unfold gate
    rw [if_neg (by simp [hall])]
    rw [if_neg (by rintro ⟨he, -⟩; rw [hk] at he; exact absurd he (by decide))]
    rw [if_neg (by rintro ⟨-, hge⟩; exact absurd hge (Nat.not_le.mpr hbud))]
    rw [if_neg (by rintro ⟨-, hgt⟩; rw [hfiles] at hgt; simp at hgt)]
    rw [if_neg (by rintro ⟨-, hsome⟩; rw [hfiles] at hsome; simp [first_forbidden] at hsome)]
    rw [if_neg (by rintro ⟨-, hgt⟩; rw [hdiff, hcount] at hgt; simp at hgt)]
    rw [if_neg (by rintro ⟨-, -, hsome⟩; rw [hfiles] at hsome; simp [first_test_file] at hsome)]
  · intro o
    simp [exec_edit, hdiff]

/-- C5 witness: the amended theorem applied to the counterexample
proposal. -/
theorem gate_total_missing_edit_inputs_witness :
    (gate c5profile c5state c5proposal).accept = true
    ∧ (exec_edit .checked_ok_apply_ok c5state c5proposal).2
        = { status := "fail", summary := "No diff provided" } := by
  have h := gate_total_missing_edit_inputs c5profile c5state c5proposal
    rfl rfl rfl (by decide) (by decide)
  exact ⟨h.1, h.2 .checked_ok_apply_ok⟩

/-! ## Claim C4: quarantine cold start -/

/-- The fresh quarantine lane of the C4 counterexample. -/
def c4lane : QuarantineLane := {}

/-- C4 counterexample: on a fresh lane (no recorded outcomes at all), a
zero-tries strategy is NOT quarantined — `QuarantineLane.is_quarantined`
returns `false` both for a context with no recorded outcomes and for a
query with no context. -/
theorem lane_cold_start_not_quarantined :
    QuarantineLane.is_quarantined c4lane "strategy_a" (some "ctx") = false
    ∧ QuarantineLane.is_quarantined c4lane "strategy_a" none = false := by
  decide

/-- C4 amended: the stats-level `is_quarantined` does return `true` for
a zero-tries strategy (whenever the minimum-evidence threshold is at
least one, as in the default configuration); but
`QuarantineLane.is_quarantined` consults it only when per-context
statistics have been recorded for the pair — with no recorded
statistics (and no global quarantine) it returns `false`. -/
theorem quarantine_cold_start_amended :
    (∀ (stats : StatsDict) (config : QuarantineConfig),
      stats.tries = 0 → 1 ≤ config.min_successes → is_quarantined stats config = true)
    ∧ (∀ (lane : QuarantineLane) (strategy : String) (context : Option String),
        lane.global_quarantine.contains strategy = false →
        (∀ ctx m, context = some ctx → lookupAssoc ctx lane.stats = some m →
          lookupAssoc strategy m = none) →
        lane.is_quarantined strategy context = false) := by
  constructor
  · intro stats config h0 h1
    unfold is_quarantined
    rw [if_pos (by omega)]
  · intro lane strategy context hg hs
    unfold QuarantineLane.is_quarantined
    rw [hg]
    simp only [Bool.false_eq_true, if_false]
    cases context with
    | none => rfl
    | some ctx =>
      dsimp only
      by_cases hctx : ctx = ""
      · rw [if_pos hctx]
      · rw [if_neg hctx]
        cases hm : lookupAssoc ctx lane.stats with
        | none => rfl
        | some m =>
          dsimp only
          rw [hs ctx m rfl hm]

/-- C4 witness: the amended theorem applied at the default
configuration and at a fresh lane. -/
theorem quarantine_cold_start_amended_witness :
    is_quarantined {} {} = true
    ∧ QuarantineLane.is_quarantined c4lane "strategy_b" (some "other") = false := by
  refine ⟨quarantine_cold_start_amended.1 {} {} rfl (by decide), ?_⟩
  exact quarantine_cold_start_amended.2 c4lane "strategy_b" (some "other") (by decide)
    (by intro ctx m _ hm; simp [c4lane, lookupAssoc] at hm)

/-! ## Claim C8: bandit exploration priority -/

theorem pick_mem {l : List String} (h : l ≠ []) (i : Nat) : pick l i ∈ l := by
  unfold pick
  have hlen : 0 < l.length := List.length_pos.mpr h
  have hlt : i % l.length < l.length := Nat.mod_lt _ hlen
  rw [List.getD_eq_getElem l "" hlt]
  exact List.getElem_mem hlt

/-- C8: for any context, exclusion set and selection method, if some
non-excluded strategy is unexplored in that context (`tries = 0`),
`select` returns an unexplored strategy — never a previously-tried
one. -/
theorem bandit_select_unexplored_priority :
    ∀ (b : StrategyBandit) (o : RandOracle) (ctx : String)
      (exclude : List String) (method : String) (s : String),
      s ∈ b.strategies → exclude.contains s = false →
      (armStats (get_context_arms b ctx) s).tries = 0 →
      (armStats (get_context_arms b ctx) (StrategyBandit.select b o ctx exclude method)).tries
        = 0 := by
  intro b o ctx exclude method s hs hex htries
  simp only [StrategyBandit.select]
  have hcand0 : s ∈ b.strategies.filter (fun t => !(exclude.contains t)) :=
    List.mem_filter.mpr ⟨hs, by rw [hex]; rfl⟩
  have hc0ne : b.strategies.filter (fun t => !(exclude.contains t)) ≠ [] :=
    List.ne_nil_of_mem hcand0
  rw [if_neg hc0ne]
  have hune : s ∈ (b.strategies.filter (fun t => !(exclude.contains t))).filter
      (fun t => (armStats (get_context_arms b ctx) t).tries = 0) :=
    List.mem_filter.mpr ⟨hcand0, decide_eq_true htries⟩
  have hunne : (b.strategies.filter (fun t => !(exclude.contains t))).filter
      (fun t => (armStats (get_context_arms b ctx) t).tries = 0) ≠ [] :=
    List.ne_nil_of_mem hune
  rw [if_pos hunne]
  have hmem := pick_mem hunne o.choiceIdx
  exact of_decide_eq_true (List.mem_filter.mp hmem).2

/-- The bandit used by the C8 witness: `a` already tried in context
`c`, `b` unexplored. -/
def c8bandit : StrategyBandit :=
  { strategies := ["a", "b"],
    arms := [("c", [("a", { tries := 3, wins := 1 }), ("b", {})])] }

/-- C8 witness: the theorem applied to the concrete two-arm bandit: the
selected arm is unexplored. -/
theorem bandit_select_unexplored_priority_witness :
    (armStats (get_context_arms c8bandit "c")
      (StrategyBandit.select c8bandit {} "c" [] "thompson")).tries = 0 :=
  bandit_select_unexplored_priority c8bandit {} "c" [] "thompson" "b"
    (by decide) (by decide) (by decide)

/-! ## Claim C10: update with simultaneous success and regression -/

theorem lookupAssoc_insertAssoc_self {α : Type} (k : String) (v : α)
    (m : List (String × α)) : lookupAssoc k (insertAssoc k v m) = some v := by
  induction m with
  | nil => simp [insertAssoc, lookupAssoc]
  | cons kv rest ih =>
    obtain ⟨k', v'⟩ := kv
    by_cases h : k' = k
    · simp [insertAssoc, lookupAssoc, h]
    · simp [insertAssoc, lookupAssoc, h, ih]

/-- C10: updating a known strategy with `success = true` and
`regression = true` simultaneously records a win only — per-context and
global statistics get `tries + 1`, `wins + 1`, `alpha + 1`,
`total_reward + 1`, with `regressions` and `beta` unchanged. -/
theorem bandit_update_success_precedence :
    ∀ (b : StrategyBandit) (ctx strategy : String) (pr : Option ℚ),
      b.strategies.contains strategy = true →
      (let st := armStats (get_context_arms b ctx) strategy
       let gst := (lookupAssoc strategy b.global_stats).getD {}
       let b' := StrategyBandit.update b ctx strategy true true pr
       let st' := armStats (get_context_arms b' ctx) strategy
       let gst' := (lookupAssoc strategy b'.global_stats).getD {}
       st'.tries = st.tries + 1 ∧ st'.wins = st.wins + 1 ∧ st'.alpha = st.alpha + 1
         ∧ st'.total_reward = st.total_reward + 1
         ∧ st'.regressions = st.regressions ∧ st'.beta = st.beta
         ∧ gst'.tries = gst.tries + 1 ∧ gst'.wins = gst.wins + 1 ∧ gst'.alpha = gst.alpha + 1
         ∧ gst'.total_reward = gst.total_reward + 1
         ∧ gst'.regressions = gst.regressions ∧ gst'.beta = gst.beta) := by
  intro b ctx strategy pr hmem
  simp only
  unfold StrategyBandit.update
  rw [hmem]
  simp only [Bool.not_true, Bool.false_eq_true, if_false]
  have harms : get_context_arms
      { b with
        arms := insertAssoc ctx
          (insertAssoc strategy
            (updateStats true true pr (armStats (get_context_arms b ctx) strategy))
            (get_context_arms b ctx)) b.arms,
        global_stats := insertAssoc strategy
          (updateStats true true pr ((lookupAssoc strategy b.global_stats).getD {}))
          b.global_stats } ctx
      = insertAssoc strategy
          (updateStats true true pr (armStats (get_context_arms b ctx) strategy))
          (get_context_arms b ctx) := by
    unfold get_context_arms
    rw [lookupAssoc_insertAssoc_self]
  rw [harms]
  unfold armStats
  rw [lookupAssoc_insertAssoc_self, lookupAssoc_insertAssoc_self]
  simp only [Option.getD_some]
  unfold updateStats
  have hpos : ((1 : ℚ) > 0) := by norm_num
  simp [hpos]

/-- C10 witness: the theorem applied to the concrete two-arm bandit. -/
theorem bandit_update_success_precedence_witness :
    (armStats
      (get_context_arms (StrategyBandit.update c8bandit "c" "a" true true none) "c")
      "a").wins
      = (armStats (get_context_arms c8bandit "c") "a").wins + 1 :=
  (bandit_update_success_precedence c8bandit "c" "a" none (by decide)).2.1

/-! ## Budget lemmas for the episode loop -/

/-- Pointwise order on the four budget counters. -/
def budgetLE (a b : Budget) : Prop :=
  a.round_idx ≤ b.round_idx ∧ a.patch_attempts ≤ b.patch_attempts
    ∧ a.test_runs ≤ b.test_runs ∧ a.model_calls ≤ b.model_calls

theorem budgetLE_refl (a : Budget) : budgetLE a a :=
  ⟨Nat.le_refl _, Nat.le_refl _, Nat.le_refl _, Nat.le_refl _⟩

theorem budgetLE_trans {a b c : Budget} (h1 : budgetLE a b) (h2 : budgetLE b c) :
    budgetLE a c :=
  ⟨Nat.le_trans h1.1 h2.1, Nat.le_trans h1.2.1 h2.2.1,
   Nat.le_trans h1.2.2.1 h2.2.2.1, Nat.le_trans h1.2.2.2 h2.2.2.2⟩

theorem exec_inspect_budget (fr : PyStr → Option String) (s : AgentState) (p : Proposal) :
    (exec_inspect fr s p).1.budget = s.budget := by
  unfold exec_inspect
  dsimp only
  split
  · rfl
  · split <;> rfl

theorem exec_search_budget (o : SearchOutcome) (s : AgentState) (p : Proposal) :
    (exec_search o s p).1.budget = s.budget := by
  cases o with
  | crashed e => unfold exec_search; dsimp only; split <;> rfl
  | found files => unfold exec_search; dsimp only; split <;> (try split) <;> rfl

theorem exec_run_tests_budget (o : TestOutcome) (s : AgentState) (p : Proposal) :
    (exec_run_tests o s p).1.budget = s.budget := by
  cases o with
  | completed rc tail fs =>
    unfold exec_run_tests
    dsimp only
    split <;> rfl
  | timeout => rfl
  | raised e => rfl

theorem exec_finalize_budget (s : AgentState) (p : Proposal) :
    (exec_finalize s p).1.budget = s.budget := rfl

theorem exec_edit_budget (o : ApplyPath) (s : AgentState) (p : Proposal) :
    s.budget.patch_attempts ≤ (exec_edit o s p).1.budget.patch_attempts
    ∧ (exec_edit o s p).1.budget.round_idx = s.budget.round_idx
    ∧ (exec_edit o s p).1.budget.test_runs = s.budget.test_runs
    ∧ (exec_edit o s p).1.budget.model_calls = s.budget.model_calls := by
  unfold exec_edit bumpPatchAttempts
  dsimp only
  split
  · exact ⟨Nat.le_refl _, rfl, rfl, rfl⟩
  · split
    · exact ⟨Nat.le_refl _, rfl, rfl, rfl⟩
    · cases o <;>
        first
          | exact ⟨Nat.le_succ _, rfl, rfl, rfl⟩
          | exact ⟨Nat.le_refl _, rfl, rfl, rfl⟩

/-- Every execution path that reports `ok` for an edit has incremented
`patch_attempts` exactly once inside the executor. -/
theorem exec_edit_ok_patch :
    ∀ (o : ApplyPath) (s : AgentState) (p : Proposal),
      (exec_edit o s p).2.status = "ok" →
      (exec_edit o s p).1.budget.patch_attempts = s.budget.patch_attempts + 1 := by
  intro o s p
  unfold exec_edit bumpPatchAttempts
  dsimp only
  split
  · intro h; simp at h
  · split
    · intro h; simp at h
    · cases o <;> intro h <;>
        first
          | rfl
          | simp at h

theorem execute_budgetLE (o : ExecOracle) (prof : Profile) (s : AgentState) (p : Proposal) :
    budgetLE s.budget (execute o prof s p).1.budget := by
  unfold execute
  split_ifs
  · rw [exec_inspect_budget]; exact budgetLE_refl _
  · rw [exec_search_budget]; exact budgetLE_refl _
  · have h := exec_edit_budget o.apply s p
    exact ⟨Nat.le_of_eq h.2.1.symm, h.1, Nat.le_of_eq h.2.2.1.symm, Nat.le_of_eq h.2.2.2.symm⟩
  · rw [exec_run_tests_budget]; exact budgetLE_refl _
  · rw [exec_finalize_budget]; exact budgetLE_refl _
  · exact budgetLE_refl _

theorem advance_phase_budget (s : AgentState) (p : Proposal) (r : ExecResult) :
    (advance_phase s p r).budget = s.budget := by
  unfold advance_phase
  cases s.notes.next_phase with
  | some f => rfl
  | none =>
    cases s.phase <;> dsimp only <;> (try split) <;> (try split) <;> (try split) <;> rfl

theorem append_event_budget (s : AgentState) (ev : LedgerEvent) :
    (append_event s ev).budget = s.budget := rfl

theorem bumpTestRuns_budgetLE (s : AgentState) : budgetLE s.budget (bumpTestRuns s).budget :=
  ⟨Nat.le_refl _, Nat.le_refl _, Nat.le_succ _, Nat.le_refl _⟩

theorem bumpModelCalls_budgetLE (s : AgentState) : budgetLE s.budget (bumpModelCalls s).budget :=
  ⟨Nat.le_refl _, Nat.le_refl _, Nat.le_refl _, Nat.le_succ _⟩

theorem applyEditUpdates_budgetLE (files : List PyStr) (s : AgentState) :
    budgetLE s.budget (applyEditUpdates files s).budget :=
  ⟨Nat.le_refl _, Nat.le_succ _, Nat.le_refl _, Nat.le_refl _⟩

theorem ite_budgetLE {c : Prop} [Decidable c] (f : AgentState → AgentState)
    (hf : ∀ s : AgentState, budgetLE s.budget (f s).budget) (s : AgentState) :
    budgetLE s.budget (if c then f s else s).budget := by
  split
  · exact hf s
  · exact budgetLE_refl _

theorem finishRound_budgetLE (p : Proposal) (d : GateDecision) (er : AgentState × ExecResult) :
    budgetLE er.1.budget (finishRound p d er).budget := by
  unfold finishRound
  dsimp only
  rw [advance_phase_budget, append_event_budget]
  refine budgetLE_trans
    (ite_budgetLE (c := p.kind = "run_tests") bumpTestRuns bumpTestRuns_budgetLE er.1) ?_
  refine budgetLE_trans
    (ite_budgetLE (c := p.kind = "edit") (applyEditUpdates (inputFiles p))
      (applyEditUpdates_budgetLE (inputFiles p)) _) ?_
  exact ite_budgetLE (c := p.kind ∈ ["inspect", "search", "edit", "run_tests"])
    bumpModelCalls bumpModelCalls_budgetLE _

theorem run_round_budgetLE (prof : Profile) (inp : RoundInput) (s : AgentState) :
    budgetLE s.budget (run_round prof inp s).budget := by
  have hpre : budgetLE s.budget (preGateState inp s).budget :=
    ⟨Nat.le_succ _, Nat.le_refl _, Nat.le_refl _, Nat.le_refl _⟩
  simp only [run_round]
  cases hp : inp.propose with
  | raised e => exact hpre
  | ok p =>
    dsimp only
    split
    · exact hpre
    · refine budgetLE_trans hpre ?_
      cases hnr : inp.execRaises with
      | some e =>
        dsimp only
        exact finishRound_budgetLE p (gate prof (preGateState inp s) p)
          (preGateState inp s, { status := "fail", summary := "Execution error: " ++ e })
      | none =>
        dsimp only
        refine budgetLE_trans (execute_budgetLE inp.oracle prof (preGateState inp s) p) ?_
        exact finishRound_budgetLE p (gate prof (preGateState inp s) p)
          (execute inp.oracle prof (preGateState inp s) p)

theorem run_rounds_budgetLE (prof : Profile) :
    ∀ (inputs : List RoundInput) (s : AgentState),
      budgetLE s.budget (run_rounds prof inputs s).budget := by
  intro inputs
  induction inputs with
  | nil => intro s; exact budgetLE_refl _
  | cons inp rest ih =>
    intro s
    unfold run_rounds
    split
    · exact budgetLE_refl _
    · split
      · exact budgetLE_refl _
      · exact budgetLE_trans (run_round_budgetLE prof inp s) (ih (run_round prof inp s))

/-- Acceptance by the gate implies the corresponding counter is below
its ceiling for the kinds the gate checks. -/
theorem gate_accept_bounds (prof : Profile) (s : AgentState) (p : Proposal)
    (h : (gate prof s p).accept = true) :
    (p.kind = "run_tests" → s.budget.test_runs < prof.max_test_runs)
    ∧ (p.kind = "edit" → s.budget.patch_attempts < prof.max_patch_attempts) := by
  unfold gate at h
  by_cases hq1 : p.kind ∉ allowed_kinds_for_phase s.phase
  · rw [if_pos hq1] at h; simp at h
  · rw [if_neg hq1] at h
    by_cases hq2 : p.kind = "run_tests" ∧ s.budget.test_runs ≥ prof.max_test_runs
    · rw [if_pos hq2] at h; simp at h
    · rw [if_neg hq2] at h
      by_cases hq3 : p.kind = "edit" ∧ s.budget.patch_attempts ≥ prof.max_patch_attempts
      · rw [if_pos hq3] at h; simp at h
      · refine ⟨fun hk => Nat.not_le.mp fun hge => hq2 ⟨hk, hge⟩,
                fun hk => Nat.not_le.mp fun hge => hq3 ⟨hk, hge⟩⟩

/-! ## Claim C2: budget monotonicity and ceilings at acceptance -/

/-- Profile of the C2 counterexample: a model-call ceiling of 5. -/
def c2profile : Profile := { max_model_calls := 5 }

/-- State of the C2 counterexample: `model_calls` already at the
ceiling. -/
def c2state : AgentState := { phase := .plan, budget := { model_calls := 5 } }

/-- Inspect proposal of the C2 counterexample. -/
def c2proposal : Proposal := { kind := "inspect", rationale := "r" }

/-- C2 counterexample: the gate accepts an inspect proposal although
`model_calls` is not strictly below `max_model_calls` — the gate
performs no model-call check at all. -/
theorem gate_accepts_at_model_call_ceiling :
    (gate c2profile c2state c2proposal).accept = true
    ∧ ¬(c2state.budget.model_calls < c2profile.max_model_calls) := by
  decide

/-- C2 amended: all four budget counters are non-decreasing across any
episode trace, and acceptance by the gate guarantees `test_runs` below
`max_test_runs` for run_tests proposals and `patch_attempts` below
`max_patch_attempts` for edit proposals (the gate checks no
model-call ceiling). -/
theorem budget_monotone_and_gate_ceilings :
    (∀ (profile : Profile) (inputs : List RoundInput) (s : AgentState),
        budgetLE s.budget (run_rounds profile inputs s).budget)
    ∧ (∀ (profile : Profile) (s : AgentState) (p : Proposal),
        (gate profile s p).accept = true →
        (p.kind = "run_tests" → s.budget.test_runs < profile.max_test_runs)
        ∧ (p.kind = "edit" → s.budget.patch_attempts < profile.max_patch_attempts)) :=
  ⟨fun profile => run_rounds_budgetLE profile, gate_accept_bounds⟩

/-- State of the C2 witness: a round of testing about to be accepted. -/
def c2wstate : AgentState := { phase := .test_stage }

/-- Run-tests proposal of the C2 witness. -/
def c2wproposal : Proposal :=
  { kind := "run_tests", rationale := "r", inputs := { command := some "pytest" } }

/-- C2 witness: the amended theorem applied at concrete inputs. -/
theorem budget_monotone_and_gate_ceilings_witness :
    budgetLE c2state.budget (run_rounds c2profile [] c2state).budget
    ∧ c2wstate.budget.test_runs < c2profile.max_test_runs :=
  ⟨budget_monotone_and_gate_ceilings.1 c2profile [] c2state,
   (budget_monotone_and_gate_ceilings.2 c2profile c2wstate c2wproposal (by decide)).1 rfl⟩

/-! ## Claim C3: patch_attempts increments on a successful edit round -/

/-- For an edit proposal, `finishRound` adds exactly one further
`patch_attempts` increment on top of the one made by the executor. -/
theorem finishRound_edit_patch (p : Proposal) (d : GateDecision) (er : AgentState × ExecResult)
    (hk : p.kind = "edit") :
    (finishRound p d er).budget.patch_attempts = er.1.budget.patch_attempts + 1 := by
  unfold finishRound
  dsimp only
  rw [advance_phase_budget, append_event_budget]
  rw [if_pos (by rw [hk]; decide), if_pos hk, if_neg (by rw [hk]; decide)]
  rfl

/-- When the proposal kind is `edit`, `execute` dispatches to
`_exec_edit`. -/
theorem execute_edit_eq (o : ExecOracle) (prof : Profile) (s : AgentState) (p : Proposal)
    (hk : p.kind = "edit") : execute o prof s p = exec_edit o.apply s p := by
  unfold execute
  rw [hk]
  rfl

/-- The diff of the C3 round: a one-line replacement. -/
def c3diff : PyStr := "--- a/f\n+++ b/f\n@@ -1,1 +1,1 @@\n-x\n+y\n".data

/-- Profile of the C3 round (defaults). -/
def c3profile : Profile := {}

/-- Starting state of the C3 round: planning phase, fresh budget. -/
def c3state : AgentState := { phase := .plan }

/-- Edit proposal of the C3 round. -/
def c3proposal : Proposal :=
  { kind := "edit", rationale := "r",
    inputs := { diff := some c3diff, files := some ["f".data] } }

/-- Round input of the C3 round: the structured git apply succeeds. -/
def c3input : RoundInput :=
  { propose := .ok c3proposal, oracle := { apply := .checked_ok_apply_ok } }

/-- C3 counterexample: a round whose edit proposal is accepted and whose
execution successfully applies the patch increases `patch_attempts`
from 0 to 2 — not by exactly one: the executor increments once and the
loop increments again. -/
theorem edit_round_double_increment_example :
    (gate c3profile (preGateState c3input c3state) c3proposal).accept = true
    ∧ (execute c3input.oracle c3profile (preGateState c3input c3state) c3proposal).2.status
        = "ok"
    ∧ c3state.budget.patch_attempts = 0
    ∧ (run_round c3profile c3input c3state).budget.patch_attempts = 2
    ∧ (run_round c3profile c3input c3state).budget.patch_attempts
        ≠ c3state.budget.patch_attempts + 1 := by
  decide

/-- C3 amended: in every round whose edit proposal the gate accepts and
whose execution successfully applies a patch, `budget.patch_attempts`
increases by exactly two — once inside the patch-application executor
and once in the budget update of the loop. -/
theorem edit_round_double_increment :
    ∀ (profile : Profile) (inp : RoundInput) (s : AgentState) (p : Proposal),
      inp.propose = .ok p → p.kind = "edit" → inp.execRaises = none →
      (gate profile (preGateState inp s) p).accept = true →
      (execute inp.oracle profile (preGateState inp s) p).2.status = "ok" →
      (run_round profile inp s).budget.patch_attempts = s.budget.patch_attempts + 2 := by
  intro profile inp s p hp hk hnr hacc hok
  simp only [run_round, hp]
  rw [if_neg (by simp [hacc])]
  rw [hnr]
  dsimp only
  rw [finishRound_edit_patch p _ _ hk]
  rw [execute_edit_eq inp.oracle profile (preGateState inp s) p hk] at hok ⊢
  rw [exec_edit_ok_patch inp.oracle.apply (preGateState inp s) p hok]
  rfl

/-- C3 witness: the amended theorem applied to the concrete successful
edit round. -/
theorem edit_round_double_increment_witness :
    (run_round c3profile c3input c3state).budget.patch_attempts
      = c3state.budget.patch_attempts + 2 :=
  edit_round_double_increment c3profile c3input c3state c3proposal
    rfl rfl rfl (by decide) (by decide)

/-! ## Claim C9: the frame of a gate-rejected round -/

/-- C9: in a round whose proposal the gate rejects, the result is
independent of the execution oracle and of execution exceptions
(execution is never invoked); `patch_attempts`, `test_runs`,
`model_calls` and `touched_files` are unchanged; one ledger event with
`gate_reject = true` carrying the decision is appended; the rejection
reason is stored in `notes.last_gate_reject`; and the phase becomes
`plan` unless it was `diagnose`, in which case it stays `diagnose`. -/
theorem reject_round_frame :
    ∀ (profile : Profile) (inp : RoundInput) (s : AgentState) (p : Proposal),
      inp.propose = .ok p →
      (gate profile (preGateState inp s) p).accept = false →
      (∀ (o : ExecOracle) (er : Option String),
          run_round profile { inp with oracle := o, execRaises := er } s
            = run_round profile inp s)
      ∧ (run_round profile inp s).budget.patch_attempts = s.budget.patch_attempts
      ∧ (run_round profile inp s).budget.test_runs = s.budget.test_runs
      ∧ (run_round profile inp s).budget.model_calls = s.budget.model_calls
      ∧ (run_round profile inp s).budget.round_idx = s.budget.round_idx + 1
      ∧ (run_round profile inp s).touched_files = s.touched_files
      ∧ (∃ ev : LedgerEvent,
          (run_round profile inp s).ledger = s.ledger ++ [ev]
          ∧ ev.result.gate_reject = true
          ∧ ev.result.reason = some (gate profile (preGateState inp s) p).reason
          ∧ ev.gate_decision = gate profile (preGateState inp s) p)
      ∧ (run_round profile inp s).notes.last_gate_reject
          = some (gate profile (preGateState inp s) p).reason
      ∧ (run_round profile inp s).phase
          = (if s.phase ≠ .diagnose then .plan else .diagnose) := by
  intro profile inp s p hp hr
  have hrr : run_round profile inp s = rejectRound profile p (preGateState inp s) := by
    simp only [run_round, hp]
    rw [if_pos hr]
  refine ⟨?_, ?_, ?_, ?_, ?_, ?_, ?_, ?_, ?_⟩
  · intro o er
    simp only [run_round, hp]
    have hpg : preGateState
        { propose := ProposeOutcome.ok p, notesF := inp.notesF, oracle := o, execRaises := er } s
        = preGateState inp s := rfl
    rw [hpg, if_pos hr, if_pos hr]
  · rw [hrr]; rfl
  · rw [hrr]; rfl
  · rw [hrr]; rfl
  · rw [hrr]; rfl
  · rw [hrr]; rfl
  · refine ⟨rejectEvent profile p (preGateState inp s), ?_, rfl, rfl, rfl⟩
    rw [hrr]; rfl
  · rw [hrr]; rfl
  · rw [hrr]; rfl

/-- Starting state of the C9 witness: ingest phase, where edits are
illegal. -/
def c9state : AgentState := { phase := .ingest }

/-- Edit proposal of the C9 witness. -/
def c9proposal : Proposal := { kind := "edit", rationale := "r" }

/-- Round input of the C9 witness. -/
def c9input : RoundInput := { propose := .ok c9proposal }

/-- C9 witness: the theorem applied to a concrete rejected round. -/
theorem reject_round_frame_witness :
    (run_round c3profile c9input c9state).budget.patch_attempts
        = c9state.budget.patch_attempts
    ∧ (run_round c3profile c9input c9state).notes.last_gate_reject
        = some (gate c3profile (preGateState c9input c9state) c9proposal).reason := by
  have h := reject_round_frame c3profile c9input c9state c9proposal rfl (by decide)
  exact ⟨h.2.1, h.2.2.2.2.2.2.2.1⟩

end RFSN
